import Mathlib

/-
Verification of the riak_exporter stats bridge (src/riak_exporter/exporter.py).

The development shallowly embeds the two flatteners
(`MetricsHandler.parse_riak_stats_data`,
`MetricsHandler.parse_riak_repl_stats_data`), the fetch wrapper
(`MetricsHandler.fetch_riak_stats`) and the scrape orchestration
(`MetricsHandler.get`).  Decoded JSON documents are modelled by an inductive
type; the Python operations the code performs on them (`.items()`, `for x in v`,
`v[k]`, `isinstance(value, (int, float, bool))`, `float(value)` interpolated by
`str.format`) are modelled by small total functions returning `Except PyErr _`
where the Python operation can raise.  The orchestration is modelled as a
function from the outcome of the two upstream fetches to the list of network
events it performs and the HTTP outcome it produces.
-/

namespace RiakExporter

/-- Decoded JSON values as produced by tornado's `json_decode`: `None`,
booleans, numbers, strings, lists and dicts.  Numbers are restricted to
integers, which covers every numeric field appearing in the claims; dicts keep
their key-insertion order, as Python dicts do. -/
inductive Json where
  | null
  | bool (b : Bool)
  | num (n : Int)
  | str (s : String)
  | arr (elems : List Json)
  | obj (entries : List (String × Json))
deriving Repr

/-- Exceptions the flattening code can raise at runtime. -/
inductive PyErr where
  | typeError (msg : String)
  | keyError (key : String)
  | attributeError (attr : String)
  | indexError
deriving Repr, DecidableEq

/-- Python `str()` of a value, as `"{}".format(...)` applies it when
interpolating a cluster identifier into a label. -/
def pyStr : Json → String
  | .str s => s
  | .num n => toString n
  | .bool b => if b then "True" else "False"
  | .null => "None"
  | .arr _ => "[...]"
  | .obj _ => "\x7b...\x7d"

/-- Python `for x in v`: a dict iterates its keys, a string its one-character
substrings, a list its elements; numbers, booleans and `None` raise
`TypeError`. -/
def pyIter : Json → Except PyErr (List Json)
  | .obj kvs => .ok (kvs.map fun kv => .str kv.1)
  | .arr xs => .ok xs
  | .str s => .ok (s.data.map fun c => .str (String.singleton c))
  | _ => .error (.typeError "object is not iterable")

/-- Python subscription `v[k]`: dict lookup (first binding; Python dicts have
unique keys) raising `KeyError` on a missing key, list and string indexing
with negative-index wrap-around, `TypeError` elsewhere. -/
def pyGetItem : Json → Json → Except PyErr Json
  | .obj kvs, .str k =>
      match kvs.find? (fun kv => kv.1 = k) with
      | some kv => .ok kv.2
      | none => .error (.keyError k)
  | .obj _, key => .error (.keyError (pyStr key))
  | .arr xs, .num n =>
      let i : Int := if n < 0 then n + xs.length else n
      match xs.get? i.toNat with
      | some x => if 0 ≤ i then .ok x else .error .indexError
      | none => .error .indexError
  | .arr _, _ => .error (.typeError "list indices must be integers")
  | .str s, .num n =>
      let i : Int := if n < 0 then n + s.length else n
      match s.data.get? i.toNat with
      | some c => if 0 ≤ i then .ok (.str (String.singleton c)) else .error .indexError
      | none => .error .indexError
  | .str _, _ => .error (.typeError "string indices must be integers")
  | _, _ => .error (.typeError "object is not subscriptable")

/-- Python `v.items()`: only dicts have the attribute. -/
def pyItems : Json → Except PyErr (List (String × Json))
  | .obj kvs => .ok kvs
  | _ => .error (.attributeError "items")

/-- The `isinstance(value, (int, float, bool))` test of exporter.py
lines 68, 82, 90, 97 and 105 (Python booleans satisfy `isinstance(_, int)`). -/
def isNumericOrBool : Json → Bool
  | .num _ => true
  | .bool _ => true
  | _ => false

/-- The value part of an emitted line: `"{}".format(float(value))`.
Booleans convert to the doubles 1.0 and 0.0; integers to the equal double.
The decimal rendering is modelled for integers small enough that CPython
prints the double in positional notation (every value in the claims is). -/
def floatFormat : Json → String
  | .num n => toString n ++ ".0"
  | .bool b => if b then "1.0" else "0.0"
  | _ => ""

/-- `MetricsHandler.parse_riak_stats_data` (exporter.py lines 58-71): iterate
the document's items and, for each numeric/boolean value, yield
`"riak_{} {}".format(key, float(value))`. -/
def parse_riak_stats_data (riak_stats_data : Json) : Except PyErr (List String) := do
  let items ← pyItems riak_stats_data
  return items.filterMap fun kv =>
    if isNumericOrBool kv.2 then some ("riak_" ++ kv.1 ++ " " ++ floatFormat kv.2)
    else none

/-- The `fullsync_coordinator` block of `parse_riak_repl_stats_data`
(exporter.py lines 87-93): `for cluster in value: for ckey, cvalue in
value[cluster].items(): ...` yielding
`riak_repl_fullsync_coordinator_<ckey>\x7bcluster="<cluster>"\x7d <float>`. -/
def fullsyncLines (value : Json) : Except PyErr (List String) := do
  let clusters ← pyIter value
  let nested ← clusters.mapM fun cluster => do
    let sub ← pyGetItem value cluster
    let fields ← pyItems sub
    return fields.filterMap fun kv =>
      if isNumericOrBool kv.2 then
        some ("riak_repl_fullsync_coordinator_" ++ kv.1 ++ "\x7bcluster=\"" ++
          pyStr cluster ++ "\"\x7d " ++ floatFormat kv.2)
      else none
  return nested.flatten

/-- One iteration of the `realtime_queue_stats` loop of
`parse_riak_repl_stats_data` (exporter.py lines 96-108) over the pair
`(rkey, rvalue)`, embedded exactly as written, including the two slips of
the `consumers` branch: line 104 subscripts the OUTER mapping
(`value[cluster]`, not `rvalue[cluster]`), and line 107 interpolates `rkey`
(the literal string `"consumers"`) into the metric name instead of `ckey`. -/
def realtimeEntry (value : Json) (kv : String × Json) : Except PyErr (List String) := do
  let base :=
    if isNumericOrBool kv.2 then
      ["riak_repl_realtime_queue_stats_" ++ kv.1 ++ " " ++ floatFormat kv.2]
    else []
  if kv.1 = "consumers" then
    let clusters ← pyIter kv.2
    let nested ← clusters.mapM fun cluster => do
      let sub ← pyGetItem value cluster
      let fields ← pyItems sub
      return fields.filterMap fun f =>
        if isNumericOrBool f.2 then
          some ("riak_repl_realtime_queue_stats_consumers_" ++ kv.1 ++
            "\x7bcluster=\"" ++ pyStr cluster ++ "\"\x7d " ++ floatFormat f.2)
        else none
    return base ++ nested.flatten
  else
    return base

/-- The `realtime_queue_stats` block of `parse_riak_repl_stats_data`
(exporter.py lines 95-108): `value.items()` iterated entry by entry. -/
def realtimeLines (value : Json) : Except PyErr (List String) := do
  let items ← pyItems value
  let parts ← items.mapM (realtimeEntry value)
  return parts.flatten

/-- One iteration of the top-level loop of `parse_riak_repl_stats_data`
(exporter.py lines 81-108): the rule-1 line when the value is numeric/boolean,
then the `fullsync_coordinator` block, then the `realtime_queue_stats`
block (the two `if`s are independent, as in the source). -/
def replEntryLines (key : String) (value : Json) : Except PyErr (List String) := do
  let base :=
    if isNumericOrBool value then ["riak_repl_" ++ key ++ " " ++ floatFormat value]
    else []
  let fsc ← if key = "fullsync_coordinator" then fullsyncLines value else pure []
  let rtq ← if key = "realtime_queue_stats" then realtimeLines value else pure []
  return base ++ fsc ++ rtq

/-- The top-level loop of `parse_riak_repl_stats_data`, entry by entry in
document order; an exception raised while processing one entry aborts the
whole traversal, as consuming the Python generator would. -/
def replLines : List (String × Json) → Except PyErr (List String)
  | [] => .ok []
  | kv :: rest => do
      let head ← replEntryLines kv.1 kv.2
      let tail ← replLines rest
      return head ++ tail

/-- `MetricsHandler.parse_riak_repl_stats_data` (exporter.py lines 73-108). -/
def parse_riak_repl_stats_data (riak_repl_stats_data : Json) :
    Except PyErr (List String) := do
  let items ← pyItems riak_repl_stats_data
  replLines items

/-- `MetricsHandler.DEFAULT_DATA` (exporter.py line 27): the empty dict
substituted for a failed fetch when errors are not propagated. -/
def DEFAULT_DATA : Json := .obj []

/-- `MetricsHandler.RAISE_ERROR` (exporter.py line 29): the propagation flag's
default value. -/
def RAISE_ERROR : Bool := true

/-- `RiakExporterServer.DEFAULT_RIAK_STATS` (exporter.py line 132). -/
def DEFAULT_RIAK_STATS : String := "http://localhost:8098/stats"

/-- `RiakExporterServer.DEFAULT_RIAK_REPL_STATS` (exporter.py line 133). -/
def DEFAULT_RIAK_REPL_STATS : String := "http://localhost:8098/riak-repl/stats"

/-- What a single upstream fetch comes back with, seen from the exporter:
either a decoded JSON document, or a failure (transport error, non-success
HTTP status, timeout, or JSON decode failure) carrying its description. -/
inductive FetchResult where
  | success (doc : Json)
  | failure (err : String)

/-- Network events of one scrape, in the order the handler performs them:
`dispatch url` when `self._client.fetch(url, ...)` is issued, `settled url`
when that fetch's future resolves (with a response or an exception) and the
coroutine resumes after its `yield`. -/
inductive Ev where
  | dispatch (url : String)
  | settled (url : String)
deriving Repr, DecidableEq

/-- The `tornado.web.HTTPError` raised by `fetch_riak_stats` on a failed
fetch when `RAISE_ERROR` holds. -/
structure HTTPErr where
  code : Nat
  msg : String
deriving Repr, DecidableEq

/-- `MetricsHandler.fetch_riak_stats` (exporter.py lines 35-56): perform one
HTTP GET; on success return the decoded document; on any failure either raise
`HTTPError(500, str(e))` (when `raiseError`) or return `DEFAULT_DATA`.  The
first component records the network events the call performs. -/
def fetch_riak_stats (raiseError : Bool) (url : String) (result : FetchResult) :
    List Ev × Except HTTPErr Json :=
  ([.dispatch url, .settled url],
    match result with
    | .success doc => .ok doc
    | .failure e => if raiseError then .error ⟨500, e⟩ else .ok DEFAULT_DATA)

/-- What one scrape request produces: a written response with status,
content type and body; an HTTP error response from a raised `HTTPError`;
or an uncaught Python exception escaping the handler. -/
inductive ScrapeOutcome where
  | response (status : Nat) (contentType : String) (body : String)
  | httpError (code : Nat) (msg : String)
  | pyError (e : PyErr)
deriving Repr, DecidableEq

/-- `MetricsHandler.get` (exporter.py lines 111-124): `yield` the primary
fetch, then — only after it resolved — `yield` the replication fetch, join
each flattener's lines with newlines, and write
`prometheus_stats + "\n" + prometheus_repl_stats + "\n"` with content type
`text/plain`.  A raised `HTTPError` or flattening exception aborts the
request before anything is written.  The first component is the event trace;
the second the outcome. -/
def get (raiseError : Bool) (statsUrl replUrl : String) (rA rB : FetchResult) :
    List Ev × ScrapeOutcome :=
  let fa := fetch_riak_stats raiseError statsUrl rA
  match fa.2 with
  | .error e => (fa.1, .httpError e.code e.msg)
  | .ok riak_stats_data =>
    let fb := fetch_riak_stats raiseError replUrl rB
    match fb.2 with
    | .error e => (fa.1 ++ fb.1, .httpError e.code e.msg)
    | .ok riak_repl_stats_data =>
      match parse_riak_stats_data riak_stats_data with
      | .error e => (fa.1 ++ fb.1, .pyError e)
      | .ok statsLines =>
        match parse_riak_repl_stats_data riak_repl_stats_data with
        | .error e => (fa.1 ++ fb.1, .pyError e)
        | .ok replMetricLines =>
          (fa.1 ++ fb.1, .response 200 "text/plain"
            (String.intercalate "\n" statsLines ++ "\n" ++
              String.intercalate "\n" replMetricLines ++ "\n"))

/-- Number of newline characters the document ends with. -/
def trailingNewlines (s : String) : Nat :=
  (s.data.reverse.takeWhile fun c => c == '\n').length

/-- Whether event `a` occurs in the trace strictly before a later
occurrence of event `b`. -/
def occursBefore (a b : Ev) : List Ev → Bool
  | [] => false
  | x :: xs => (x == a && xs.contains b) || occursBefore a b xs

/-- The two fetches of a scrape overlap in flight when the replication fetch
is dispatched before the primary fetch has settled. -/
def dispatchedConcurrently (statsUrl replUrl : String) (tr : List Ev) : Prop :=
  occursBefore (.dispatch replUrl) (.settled statsUrl) tr = true

/-- The line a top-level entry contributes under rule 1 of the primary
flattener, if any. -/
def statsLine (kv : String × Json) : Option String :=
  if isNumericOrBool kv.2 then some ("riak_" ++ kv.1 ++ " " ++ floatFormat kv.2)
  else none

/-- The line a top-level entry contributes under rule 1 of the replication
flattener, if any. -/
def replStatsLine (kv : String × Json) : Option String :=
  if isNumericOrBool kv.2 then some ("riak_repl_" ++ kv.1 ++ " " ++ floatFormat kv.2)
  else none

lemma parse_riak_stats_data_obj (entries : List (String × Json)) :
    parse_riak_stats_data (.obj entries) = .ok (entries.filterMap statsLine) := rfl

lemma parse_riak_repl_stats_data_obj (entries : List (String × Json)) :
    parse_riak_repl_stats_data (.obj entries) = replLines entries := rfl

lemma replEntryLines_nonspecial (key : String) (value : Json)
    (h1 : key ≠ "fullsync_coordinator") (h2 : key ≠ "realtime_queue_stats") :
    replEntryLines key value =
      .ok ((replStatsLine (key, value)).toList) := by
  simp [replEntryLines, h1, h2, replStatsLine]
  cases h : isNumericOrBool value <;> simp [h] <;> rfl

lemma replLines_nonspecial (entries : List (String × Json))
    (h : ∀ kv ∈ entries,
      kv.1 ≠ "fullsync_coordinator" ∧ kv.1 ≠ "realtime_queue_stats") :
    replLines entries = .ok (entries.filterMap replStatsLine) := by
  induction entries with
  | nil => rfl
  | cons kv rest ih =>
      obtain ⟨h1, h2⟩ := h kv (List.mem_cons_self kv rest)
      rw [replLines, replEntryLines_nonspecial kv.1 kv.2 h1 h2,
        ih fun x hx => h x (List.mem_cons_of_mem kv hx)]
      cases hnum : isNumericOrBool kv.2 <;>
        simp [List.filterMap_cons, replStatsLine, hnum, Option.toList] <;> rfl

/-- C9: the primary-document flattener is total — on any mapping from string
keys to arbitrary JSON values, `parse_riak_stats_data` returns normally
(never raises), inspects only the top level, and skips every non-numeric,
non-boolean value (it emits exactly the rule-1 lines of the scalar entries). -/
theorem claim9_primary_flattener_total (entries : List (String × Json)) :
    parse_riak_stats_data (.obj entries) = .ok (entries.filterMap statsLine) := rfl

/-- C4: on a document whose top-level values are all numeric or boolean, the
primary flattener emits exactly one metric per top-level key, named
`riak_<key>` with no labels, in the document's key-insertion order. -/
theorem claim4_all_scalar_one_metric_per_key (entries : List (String × Json))
    (h : ∀ kv ∈ entries, isNumericOrBool kv.2 = true) :
    parse_riak_stats_data (.obj entries) =
      .ok (entries.map fun kv => "riak_" ++ kv.1 ++ " " ++ floatFormat kv.2) := by
  rw [parse_riak_stats_data_obj]
  congr 1
  induction entries with
  | nil => rfl
  | cons kv rest ih =>
      rw [List.filterMap_cons]
      have hkv := h kv (List.mem_cons_self kv rest)
      simp [statsLine, hkv, ih fun x hx => h x (List.mem_cons_of_mem kv hx)]

/-- Witness for C4 at a concrete two-key all-scalar document. -/
theorem claim4_witness :
    (∀ kv ∈ [("vnode_gets", Json.num 42), ("disk_ok", Json.bool true)],
      isNumericOrBool kv.2 = true) ∧
    parse_riak_stats_data
        (.obj [("vnode_gets", Json.num 42), ("disk_ok", Json.bool true)]) =
      .ok ["riak_vnode_gets 42.0", "riak_disk_ok 1.0"] := by
  refine ⟨by decide, ?_⟩
  have h := claim4_all_scalar_one_metric_per_key
    [("vnode_gets", Json.num 42), ("disk_ok", Json.bool true)] (by decide)
  exact h.trans (by rfl)

/-- C5 counterexample: the rendered line for a boolean shows `1.0`/`0.0`,
not the bare digits `1`/`0` the claim states. -/
theorem claim5_counterexample :
    parse_riak_stats_data
        (.obj [("disk_ok", Json.bool true), ("stopped", Json.bool false)]) =
      .ok ["riak_disk_ok 1.0", "riak_stopped 0.0"] ∧
    ("riak_disk_ok 1.0" : String) ≠ "riak_disk_ok 1" ∧
    ("riak_stopped 0.0" : String) ≠ "riak_stopped 0" :=
  ⟨rfl, by decide, by decide⟩

/-- C5 as amended: for every document containing a top-level boolean value,
the rendered metric line for that key shows `true` as `1.0` and `false` as
`0.0` — the float renderings of one and zero. -/
theorem claim5_bool_rendering (entries : List (String × Json)) (k : String) (b : Bool)
    (h : (k, Json.bool b) ∈ entries) :
    ∃ l, parse_riak_stats_data (.obj entries) = .ok l ∧
      ("riak_" ++ k ++ " " ++ (if b then "1.0" else "0.0")) ∈ l := by
  refine ⟨entries.filterMap statsLine, rfl, ?_⟩
  rw [List.mem_filterMap]
  exact ⟨(k, Json.bool b), h, rfl⟩

/-- Witness for C5 (amended) at a concrete document. -/
theorem claim5_witness :
    ∃ l, parse_riak_stats_data (.obj [("disk_ok", Json.bool true)]) = .ok l ∧
      "riak_disk_ok 1.0" ∈ l := by
  have h := claim5_bool_rendering [("disk_ok", Json.bool true)] "disk_ok" true
    (List.mem_singleton.mpr rfl)
  simpa using h

/-- C2 counterexample: a replication document in which `fullsync_coordinator`
is `null` makes the flattener raise a `TypeError` rather than complete. -/
theorem claim2_counterexample :
    parse_riak_repl_stats_data (.obj [("fullsync_coordinator", Json.null)]) =
      .error (.typeError "object is not iterable") := rfl


/-- C1 evaluated on the code: on the well-formed consumers document of the
claim the flattener raises `KeyError` (line 104 subscripts the outer
`realtime_queue_stats` mapping with the cluster identifier), and on a
document where that outer lookup happens to succeed the emitted metric is
named `..._consumers_consumers` (line 107 interpolates `rkey`) with the
value taken from the outer sub-mapping, not from the consumers entry. -/
theorem claim1_consumers_defect :
    parse_riak_repl_stats_data (.obj [("realtime_queue_stats",
        Json.obj [("consumers",
          Json.obj [("clusterA", Json.obj [("drops", Json.num 1)])])])]) =
      .error (.keyError "clusterA") ∧
    parse_riak_repl_stats_data (.obj [("realtime_queue_stats",
        Json.obj [("clusterA", Json.obj [("q_len", Json.num 4)]),
          ("consumers",
            Json.obj [("clusterA", Json.obj [("drops", Json.num 7)])])])]) =
      .ok ["riak_repl_realtime_queue_stats_consumers_consumers\x7bcluster=\"clusterA\"\x7d 4.0"] :=
  ⟨rfl, rfl⟩

lemma ok_bind {α β : Type} (a : α) (f : α → Except PyErr β) :
    (Except.ok a >>= f) = f a := rfl

lemma ok_map {α β : Type} (f : α → β) (a : α) :
    (f <$> (Except.ok a : Except PyErr α)) = .ok (f a) := rfl

lemma error_bind {α β : Type} (e : PyErr) (f : α → Except PyErr β) :
    ((Except.error e : Except PyErr α) >>= f) = .error e := rfl

/-- C3 counterexample: a scrape in which both fetches succeed.  The trace
shows the replication fetch dispatched only after the primary fetch settled:
the two fetches are not concurrent and never overlap in flight. -/
theorem claim3_counterexample :
    get true DEFAULT_RIAK_STATS DEFAULT_RIAK_REPL_STATS
        (.success (.obj [])) (.success (.obj [])) =
      ([.dispatch DEFAULT_RIAK_STATS, .settled DEFAULT_RIAK_STATS,
        .dispatch DEFAULT_RIAK_REPL_STATS, .settled DEFAULT_RIAK_REPL_STATS],
        .response 200 "text/plain" "\n\n") ∧
    ¬ dispatchedConcurrently DEFAULT_RIAK_STATS DEFAULT_RIAK_REPL_STATS
        (get true DEFAULT_RIAK_STATS DEFAULT_RIAK_REPL_STATS
          (.success (.obj [])) (.success (.obj []))).1 := by
  refine ⟨rfl, ?_⟩
  unfold dispatchedConcurrently
  decide

/-- C3 as amended: the two upstream fetches are issued sequentially, not
concurrently — the replication fetch is dispatched only after the primary
fetch has settled, so the scrape's elapsed time is the sum of the two fetch
times, not their maximum.  Every trace of `get` is either the primary fetch
alone or the primary fetch followed by the replication fetch. -/
theorem claim3_sequential_fetches (raiseError : Bool) (sU rU : String)
    (rA rB : FetchResult) :
    (get raiseError sU rU rA rB).1 = [.dispatch sU, .settled sU] ∨
    (get raiseError sU rU rA rB).1 =
      [.dispatch sU, .settled sU, .dispatch rU, .settled rU] := by
  unfold get fetch_riak_stats
  dsimp only
  split
  · exact Or.inl rfl
  · split
    · exact Or.inr rfl
    · split
      · exact Or.inr rfl
      · split <;> exact Or.inr rfl

/-- C10: when the primary fetch fails with error propagation enabled, the
scrape's trace consists of the primary fetch alone, and the replication
endpoint is never contacted. -/
theorem claim10_repl_never_contacted (sU rU e : String) (rB : FetchResult) :
    (get true sU rU (.failure e) rB).1 = [Ev.dispatch sU, Ev.settled sU] ∧
    (rU ≠ sU → Ev.dispatch rU ∉ (get true sU rU (.failure e) rB).1) := by
  refine ⟨rfl, fun hne hmem => ?_⟩
  have hmem2 : Ev.dispatch rU ∈ [Ev.dispatch sU, Ev.settled sU] := hmem
  simp only [List.mem_cons, List.not_mem_nil, or_false, Ev.dispatch.injEq] at hmem2
  rcases hmem2 with h | h
  · exact hne h
  · exact Ev.noConfusion h

/-- Witness for C10 at the default endpoint URLs. -/
theorem claim10_witness :
    (get true DEFAULT_RIAK_STATS DEFAULT_RIAK_REPL_STATS
        (.failure "timeout") (.success DEFAULT_DATA)).1 =
      [Ev.dispatch DEFAULT_RIAK_STATS, Ev.settled DEFAULT_RIAK_STATS] ∧
    Ev.dispatch DEFAULT_RIAK_REPL_STATS ∉
      (get true DEFAULT_RIAK_STATS DEFAULT_RIAK_REPL_STATS
        (.failure "timeout") (.success DEFAULT_DATA)).1 :=
  ⟨(claim10_repl_never_contacted _ _ _ _).1,
    (claim10_repl_never_contacted _ _ _ _).2 (by decide)⟩

/-- C6: the scrape-failure policy.  With propagation enabled (the default),
a failed fetch — primary or replication — aborts the request with a 500
carrying the error description, the other fetch's results discarded; with
propagation disabled, the failed source is replaced by the empty document
(contributing zero metrics) and the scrape still completes with 200. -/
theorem claim6_failure_policy :
    (∀ (sU rU e : String) (rB : FetchResult),
      (get true sU rU (.failure e) rB).2 = .httpError 500 e) ∧
    (∀ (sU rU : String) (dA : Json) (e : String),
      (get true sU rU (.success dA) (.failure e)).2 = .httpError 500 e) ∧
    (∀ (sU rU e : String) (dB : Json) (lB : List String),
      parse_riak_repl_stats_data dB = .ok lB →
      (get false sU rU (.failure e) (.success dB)).2 =
        .response 200 "text/plain"
          ("" ++ "\n" ++ String.intercalate "\n" lB ++ "\n")) ∧
    (∀ (sU rU : String) (dA : Json) (lA : List String) (e : String),
      parse_riak_stats_data dA = .ok lA →
      (get false sU rU (.success dA) (.failure e)).2 =
        .response 200 "text/plain"
          (String.intercalate "\n" lA ++ "\n" ++ "" ++ "\n")) ∧
    (∀ (sU rU e e2 : String),
      (get false sU rU (.failure e) (.failure e2)).2 =
        .response 200 "text/plain" "\n\n") := by
  refine ⟨fun sU rU e rB => rfl, fun sU rU dA e => rfl, ?_, ?_, fun sU rU e e2 => rfl⟩
  · intro sU rU e dB lB h
    unfold get fetch_riak_stats
    dsimp only
    rw [h]
    rfl
  · intro sU rU dA lA e h
    unfold get fetch_riak_stats
    dsimp only
    rw [h]
    rfl

/-- Witness for C6 at concrete failing fetches. -/
theorem claim6_witness :
    (get false "s" "r" (.success (.obj [("node_gets", Json.num 9)]))
        (.failure "connection refused")).2 =
      .response 200 "text/plain"
        (String.intercalate "\n" ["riak_node_gets 9.0"] ++ "\n" ++ "" ++ "\n") :=
  claim6_failure_policy.2.2.2.1 "s" "r" (.obj [("node_gets", Json.num 9)])
    ["riak_node_gets 9.0"] "connection refused" rfl

/-- C7 counterexample: with two empty documents both sections render empty,
the body is `"\n\n"`, and the document ends with two trailing newlines, not
exactly one. -/
theorem claim7_counterexample :
    (get true DEFAULT_RIAK_STATS DEFAULT_RIAK_REPL_STATS
        (.success (.obj [])) (.success (.obj []))).2 =
      .response 200 "text/plain" "\n\n" ∧
    trailingNewlines "\n\n" = 2 ∧ trailingNewlines "\n\n" ≠ 1 :=
  ⟨rfl, rfl, by decide⟩

/-- C7 as amended: the response body always equals the rendered primary
metrics, a newline, the rendered replication metrics, and a trailing
newline; the body ends with exactly one trailing newline whenever the
rendered replication section is nonempty and does not itself end with a
newline (when that section is empty, the body ends with two newlines, as
the counterexample shows). -/
theorem claim7_body_concatenation (sU rU : String) (dA dB : Json)
    (lA lB : List String)
    (hA : parse_riak_stats_data dA = .ok lA)
    (hB : parse_riak_repl_stats_data dB = .ok lB) :
    (get true sU rU (.success dA) (.success dB)).2 =
      .response 200 "text/plain"
        (String.intercalate "\n" lA ++ "\n" ++ String.intercalate "\n" lB ++ "\n") ∧
    (∀ c cs, (String.intercalate "\n" lB).data.reverse = c :: cs → c ≠ '\n' →
      trailingNewlines (String.intercalate "\n" lA ++ "\n" ++
        String.intercalate "\n" lB ++ "\n") = 1) := by
  constructor
  · unfold get fetch_riak_stats
    dsimp only
    rw [hA, hB]
  · intro c cs hrev hc
    have hcb : (c == '\n') = false := by simp [hc]
    unfold trailingNewlines
    rw [String.data_append, String.data_append, String.data_append]
    rw [show ("\n" : String).data = ['\n'] from rfl]
    rw [List.reverse_append, List.reverse_append, List.reverse_append]
    simp only [List.reverse_cons, List.reverse_nil, List.nil_append, List.cons_append]
    rw [hrev]
    simp [List.takeWhile_cons, hcb]

/-- Witness for C7 (amended) at a concrete pair of one-metric documents. -/
theorem claim7_witness :
    (get true DEFAULT_RIAK_STATS DEFAULT_RIAK_REPL_STATS
        (.success (.obj [("a", Json.num 1)]))
        (.success (.obj [("b", Json.num 2)]))).2 =
      .response 200 "text/plain"
        (String.intercalate "\n" ["riak_a 1.0"] ++ "\n" ++
          String.intercalate "\n" ["riak_repl_b 2.0"] ++ "\n") ∧
    trailingNewlines (String.intercalate "\n" ["riak_a 1.0"] ++ "\n" ++
      String.intercalate "\n" ["riak_repl_b 2.0"] ++ "\n") = 1 := by
  have h := claim7_body_concatenation DEFAULT_RIAK_STATS DEFAULT_RIAK_REPL_STATS
    (.obj [("a", Json.num 1)]) (.obj [("b", Json.num 2)])
    ["riak_a 1.0"] ["riak_repl_b 2.0"] rfl rfl
  exact ⟨h.1, h.2 '0'
    (String.intercalate "\n" ["riak_repl_b 2.0"]).data.reverse.tail rfl (by decide)⟩

/-- A replication value of the shape rule 2 expects for
`fullsync_coordinator`: cluster identifiers mapped to sub-mappings. -/
def clusterMapValue (m : List (String × List (String × Json))) : Json :=
  .obj (m.map fun p => (p.1, .obj p.2))

/-- The lines the fullsync block emits for one cluster of a well-shaped
cluster map. -/
def fullsyncClusterLines (p : String × List (String × Json)) : List String :=
  p.2.filterMap fun q =>
    if isNumericOrBool q.2 then
      some ("riak_repl_fullsync_coordinator_" ++ q.1 ++ "\x7bcluster=\"" ++
        p.1 ++ "\"\x7d " ++ floatFormat q.2)
    else none

lemma clusterMap_find (m : List (String × List (String × Json)))
    (hnd : (m.map Prod.fst).Nodup) (p : String × List (String × Json))
    (hp : p ∈ m) :
    ((m.map fun q => (q.1, Json.obj q.2)).find? fun kv => kv.1 = p.1) =
      some (p.1, Json.obj p.2) := by
  induction m with
  | nil => cases hp
  | cons q rest ih =>
      rw [List.map_cons] at hnd
      have hnd2 := List.nodup_cons.mp hnd
      rw [List.map_cons]
      rcases List.mem_cons.mp hp with rfl | hp2
      · rw [List.find?_cons_of_pos _ (by simp)]
      · have hne : q.1 ≠ p.1 := by
          intro hh
          exact hnd2.1 (hh ▸ List.mem_map_of_mem Prod.fst hp2)
        rw [@List.find?_cons_of_neg _ (fun kv => decide (kv.1 = p.1))
          (q.1, Json.obj q.2) (List.map (fun q => (q.1, Json.obj q.2)) rest)
          (by simp [hne])]
        exact ih hnd2.2 hp2

lemma pyGetItem_clusterMap (m : List (String × List (String × Json)))
    (hnd : (m.map Prod.fst).Nodup) (p : String × List (String × Json))
    (hp : p ∈ m) :
    pyGetItem (clusterMapValue m) (Json.str p.1) = .ok (Json.obj p.2) := by
  simp only [clusterMapValue, pyGetItem]
  rw [clusterMap_find m hnd p hp]

lemma fullsync_inner_mapM (whole m' : List (String × List (String × Json)))
    (h : ∀ p ∈ m',
      pyGetItem (clusterMapValue whole) (Json.str p.1) = .ok (Json.obj p.2)) :
    ((m'.map fun p => (p.1, Json.obj p.2)).map fun kv => Json.str kv.1).mapM
      (fun cluster => do
        let sub ← pyGetItem (clusterMapValue whole) cluster
        let fields ← pyItems sub
        return fields.filterMap fun kv : String × Json =>
          if isNumericOrBool kv.2 then
            some ("riak_repl_fullsync_coordinator_" ++ kv.1 ++ "\x7bcluster=\"" ++
              pyStr cluster ++ "\"\x7d " ++ floatFormat kv.2)
          else none) =
      .ok (m'.map fullsyncClusterLines) := by
  induction m' with
  | nil => rfl
  | cons p rest ih =>
      rw [List.map_cons, List.map_cons, List.mapM_cons]
      have hp := h p (List.mem_cons_self p rest)
      simp only [hp, ok_bind,
        ih fun x hx => h x (List.mem_cons_of_mem p hx)]
      rfl

lemma fullsyncLines_clusterMap (m : List (String × List (String × Json)))
    (hnd : (m.map Prod.fst).Nodup) :
    fullsyncLines (clusterMapValue m) = .ok (m.map fullsyncClusterLines).flatten := by
  unfold fullsyncLines
  rw [show pyIter (clusterMapValue m) =
    .ok ((m.map fun p => (p.1, Json.obj p.2)).map fun kv => Json.str kv.1) from rfl]
  simp only [ok_bind]
  rw [fullsync_inner_mapM m m fun p hp => pyGetItem_clusterMap m hnd p hp]
  rfl

lemma replEntryLines_fullsync (m : List (String × List (String × Json)))
    (hnd : (m.map Prod.fst).Nodup) :
    replEntryLines "fullsync_coordinator" (clusterMapValue m) =
      .ok (m.map fullsyncClusterLines).flatten := by
  have hb : isNumericOrBool (clusterMapValue m) = false := rfl
  simp [replEntryLines, hb, fullsyncLines_clusterMap m hnd, ok_bind]

lemma replLines_append_ok (xs ys : List (String × Json)) (l : List String)
    (h : replLines (xs ++ ys) = .ok l) :
    ∃ a b, replLines xs = .ok a ∧ replLines ys = .ok b ∧ l = a ++ b := by
  induction xs generalizing l with
  | nil => exact ⟨[], l, rfl, h, rfl⟩
  | cons kv rest ih =>
      rw [List.cons_append, replLines] at h
      cases he : replEntryLines kv.1 kv.2 with
      | error e => rw [he, error_bind] at h; simp at h
      | ok hd =>
          simp only [he, ok_bind] at h
          cases ht : replLines (rest ++ ys) with
          | error e => rw [ht, error_bind] at h; simp at h
          | ok tl =>
              simp only [ht, ok_bind] at h
              have hl : hd ++ tl = l := Except.ok.inj h
              obtain ⟨a, b, ha, hb2, rfl⟩ := ih tl ht
              refine ⟨hd ++ a, b, ?_, hb2, ?_⟩
              · rw [replLines]
                simp only [he, ok_bind, ha]
                rfl
              · rw [← hl, List.append_assoc]

lemma filterMap_if_eq_map {α : Type} (c : α → Bool) (f : α → String) (l : List α)
    (h : ∀ a ∈ l, c a = true) :
    (l.filterMap fun a => if c a then some (f a) else none) = l.map f := by
  induction l with
  | nil => rfl
  | cons a rest ih =>
      rw [List.filterMap_cons]
      simp [h a (List.mem_cons_self a rest),
        ih fun x hx => h x (List.mem_cons_of_mem a hx)]

/-- C8: for a replication document whose `fullsync_coordinator` value maps
cluster identifiers (no duplicates, as Python dicts guarantee) to
sub-mappings of numeric/boolean fields, any successful flattening contains,
contiguously and in document order, the metric
`riak_repl_fullsync_coordinator_<field>\x7bcluster="<clusterID>"\x7d <value>` for
each cluster and each field; in particular the claim's concrete document
yields exactly
`riak_repl_fullsync_coordinator_queue_length\x7bcluster="clusterA"\x7d 3.0`. -/
theorem claim8_fullsync_metrics :
    (∀ (pre post : List (String × Json))
        (m : List (String × List (String × Json))) (l : List String),
      (m.map Prod.fst).Nodup →
      (∀ p ∈ m, ∀ q ∈ p.2, isNumericOrBool q.2 = true) →
      parse_riak_repl_stats_data
          (.obj (pre ++ ("fullsync_coordinator", clusterMapValue m) :: post)) =
        .ok l →
      ∃ l₁ l₂, l = l₁ ++ (m.flatMap fun p => p.2.map fun q =>
          "riak_repl_fullsync_coordinator_" ++ q.1 ++ "\x7bcluster=\"" ++ p.1 ++
            "\"\x7d " ++ floatFormat q.2) ++ l₂) ∧
    parse_riak_repl_stats_data
        (.obj [("fullsync_coordinator",
          Json.obj [("clusterA", Json.obj [("queue_length", Json.num 3)])])]) =
      .ok ["riak_repl_fullsync_coordinator_queue_length\x7bcluster=\"clusterA\"\x7d 3.0"] := by
  refine ⟨?_, rfl⟩
  intro pre post m l hnd hscalar hparse
  rw [parse_riak_repl_stats_data_obj] at hparse
  obtain ⟨a, b, ha, hb, rfl⟩ := replLines_append_ok pre _ l hparse
  rw [show ("fullsync_coordinator", clusterMapValue m) :: post =
    [("fullsync_coordinator", clusterMapValue m)] ++ post from rfl] at hb
  obtain ⟨bm, bp, hbm, hbp, rfl⟩ := replLines_append_ok _ _ _ hb
  rw [replLines] at hbm
  simp only [replEntryLines_fullsync m hnd, ok_bind,
    show replLines ([] : List (String × Json)) = .ok [] from rfl, ok_map] at hbm
  have hbm2 : (m.map fullsyncClusterLines).flatten = bm := by
    simpa using Except.ok.inj hbm
  have hexp : (m.map fullsyncClusterLines).flatten =
      m.flatMap fun p => p.2.map fun q =>
        "riak_repl_fullsync_coordinator_" ++ q.1 ++ "\x7bcluster=\"" ++ p.1 ++
          "\"\x7d " ++ floatFormat q.2 := by
    rw [show (m.flatMap fun p => p.2.map fun q =>
        "riak_repl_fullsync_coordinator_" ++ q.1 ++ "\x7bcluster=\"" ++ p.1 ++
          "\"\x7d " ++ floatFormat q.2) =
      (m.map fun p => p.2.map fun q =>
        "riak_repl_fullsync_coordinator_" ++ q.1 ++ "\x7bcluster=\"" ++ p.1 ++
          "\"\x7d " ++ floatFormat q.2).flatten from rfl]
    congr 1
    apply List.map_congr_left
    intro p hp
    exact filterMap_if_eq_map _ _ p.2 (hscalar p hp)
  refine ⟨a, bp, ?_⟩
  rw [← hbm2, hexp, List.append_assoc]

/-- Witness for C8 at the claim's concrete single-cluster document. -/
theorem claim8_witness :
    ∃ l₁ l₂,
      (["riak_repl_fullsync_coordinator_queue_length\x7bcluster=\"clusterA\"\x7d 3.0"] :
        List String) =
      l₁ ++ (([("clusterA", [("queue_length", Json.num 3)])].flatMap fun p =>
        p.2.map fun q =>
          "riak_repl_fullsync_coordinator_" ++ q.1 ++ "\x7bcluster=\"" ++ p.1 ++
            "\"\x7d " ++ floatFormat q.2)) ++ l₂ :=
  claim8_fullsync_metrics.1 [] [] [("clusterA", [("queue_length", Json.num 3)])]
    ["riak_repl_fullsync_coordinator_queue_length\x7bcluster=\"clusterA\"\x7d 3.0"]
    (by decide) (by decide) rfl

lemma pyIter_scalar (v : Json)
    (hv : isNumericOrBool v = true ∨ v = Json.null) :
    pyIter v = .error (.typeError "object is not iterable") := by
  rcases hv with hv | rfl
  · cases v <;> simp [isNumericOrBool] at hv <;> rfl
  · rfl

lemma pyItems_not_obj (v : Json) (hv : ∀ kvs, v ≠ Json.obj kvs) :
    pyItems v = .error (.attributeError "items") := by
  cases v <;> first | rfl | exact absurd rfl (hv _)

lemma fullsyncLines_scalar_error (v : Json)
    (hv : isNumericOrBool v = true ∨ v = Json.null) :
    fullsyncLines v = .error (.typeError "object is not iterable") := by
  unfold fullsyncLines
  rw [pyIter_scalar v hv, error_bind]

lemma realtimeLines_not_obj_error (v : Json) (hv : ∀ kvs, v ≠ Json.obj kvs) :
    realtimeLines v = .error (.attributeError "items") := by
  unfold realtimeLines
  rw [pyItems_not_obj v hv, error_bind]

lemma realtimeEntry_consumers_scalar (value v : Json)
    (hv : isNumericOrBool v = true ∨ v = Json.null) :
    realtimeEntry value ("consumers", v) =
      .error (.typeError "object is not iterable") := by
  simp [realtimeEntry, pyIter_scalar v hv, error_bind]

lemma mapM_error_of_mem {α : Type} (f : α → Except PyErr (List String))
    (l : List α) (a : α) (ha : a ∈ l) (e : PyErr) (hfa : f a = .error e) :
    ∃ e2, l.mapM f = .error e2 := by
  induction l with
  | nil => cases ha
  | cons hd rest ih =>
      rcases List.mem_cons.mp ha with rfl | ha2
      · exact ⟨e, by rw [List.mapM_cons, hfa, error_bind]⟩
      · cases hhd : f hd with
        | error e3 => exact ⟨e3, by rw [List.mapM_cons, hhd, error_bind]⟩
        | ok x =>
            obtain ⟨e3, he3⟩ := ih ha2
            refine ⟨e3, ?_⟩
            rw [List.mapM_cons]
            simp only [hhd, ok_bind, he3, error_bind]

lemma realtimeLines_consumers_scalar (rm : List (String × Json)) (v : Json)
    (hmem : ("consumers", v) ∈ rm)
    (hv : isNumericOrBool v = true ∨ v = Json.null) :
    ∃ e, realtimeLines (Json.obj rm) = .error e := by
  obtain ⟨e, he⟩ := mapM_error_of_mem (realtimeEntry (Json.obj rm)) rm
    ("consumers", v) hmem (.typeError "object is not iterable")
    (realtimeEntry_consumers_scalar (Json.obj rm) v hv)
  refine ⟨e, ?_⟩
  unfold realtimeLines
  rw [show pyItems (Json.obj rm) = .ok rm from rfl]
  simp only [ok_bind]
  rw [he, error_bind]

lemma replEntryLines_fullsync_scalar (v : Json)
    (hv : isNumericOrBool v = true ∨ v = Json.null) :
    replEntryLines "fullsync_coordinator" v =
      .error (.typeError "object is not iterable") := by
  simp [replEntryLines, fullsyncLines_scalar_error v hv, error_bind]

lemma replEntryLines_realtime_error_of (v : Json) (e : PyErr)
    (he : realtimeLines v = .error e) :
    replEntryLines "realtime_queue_stats" v = .error e := by
  simp [replEntryLines, he, error_bind]

lemma replLines_of_entry_error (entries : List (String × Json))
    (kv : String × Json) (hmem : kv ∈ entries) (e : PyErr)
    (he : replEntryLines kv.1 kv.2 = .error e) :
    ∃ e2, replLines entries = .error e2 := by
  induction entries with
  | nil => cases hmem
  | cons hd rest ih =>
      rcases List.mem_cons.mp hmem with rfl | hmem2
      · exact ⟨e, by rw [replLines, he, error_bind]⟩
      · cases hhd : replEntryLines hd.1 hd.2 with
        | error e3 => exact ⟨e3, by rw [replLines, hhd, error_bind]⟩
        | ok l =>
            obtain ⟨e3, he3⟩ := ih hmem2
            refine ⟨e3, ?_⟩
            rw [replLines]
            simp only [hhd, ok_bind, he3, error_bind]

/-- C2 as amended: flattening ignores values of unrecognized shapes only at
keys without special nested handling — a replication document whose keys all
avoid `fullsync_coordinator` and `realtime_queue_stats` flattens without
raising, emitting exactly its rule-1 metrics.  Under the special keys the
claimed tolerance fails: flattening any replication document in which
`fullsync_coordinator` maps to a number, a boolean, or null, in which
`realtime_queue_stats` maps to any non-mapping value, or in which the
`consumers` sub-key of a `realtime_queue_stats` mapping maps to a number, a
boolean, or null, raises an error instead of ignoring the value. -/
theorem claim2_unrecognized_shapes :
    (∀ entries, (∀ kv ∈ entries,
        kv.1 ≠ "fullsync_coordinator" ∧ kv.1 ≠ "realtime_queue_stats") →
      parse_riak_repl_stats_data (.obj entries) =
        .ok (entries.filterMap replStatsLine)) ∧
    (∀ (entries : List (String × Json)) (v : Json),
      ("fullsync_coordinator", v) ∈ entries →
      isNumericOrBool v = true ∨ v = Json.null →
      ∃ e, parse_riak_repl_stats_data (.obj entries) = .error e) ∧
    (∀ (entries : List (String × Json)) (v : Json),
      ("realtime_queue_stats", v) ∈ entries →
      (∀ kvs, v ≠ Json.obj kvs) →
      ∃ e, parse_riak_repl_stats_data (.obj entries) = .error e) ∧
    (∀ (entries rm : List (String × Json)) (v : Json),
      ("realtime_queue_stats", Json.obj rm) ∈ entries →
      ("consumers", v) ∈ rm →
      isNumericOrBool v = true ∨ v = Json.null →
      ∃ e, parse_riak_repl_stats_data (.obj entries) = .error e) := by
  refine ⟨fun entries h => ?_, fun entries v hmem hv => ?_,
    fun entries v hmem hv => ?_, fun entries rm v hmem hmem2 hv => ?_⟩
  · rw [parse_riak_repl_stats_data_obj, replLines_nonspecial entries h]
  · obtain ⟨e2, he2⟩ := replLines_of_entry_error entries ("fullsync_coordinator", v)
      hmem _ (replEntryLines_fullsync_scalar v hv)
    exact ⟨e2, by rw [parse_riak_repl_stats_data_obj, he2]⟩
  · obtain ⟨e2, he2⟩ := replLines_of_entry_error entries ("realtime_queue_stats", v)
      hmem _ (replEntryLines_realtime_error_of v _ (realtimeLines_not_obj_error v hv))
    exact ⟨e2, by rw [parse_riak_repl_stats_data_obj, he2]⟩
  · obtain ⟨e, he⟩ := realtimeLines_consumers_scalar rm v hmem2 hv
    obtain ⟨e2, he2⟩ := replLines_of_entry_error entries
      ("realtime_queue_stats", Json.obj rm) hmem _
      (replEntryLines_realtime_error_of (Json.obj rm) e he)
    exact ⟨e2, by rw [parse_riak_repl_stats_data_obj, he2]⟩

/-- Witness for C2 (amended): a document of non-special keys flattens to
exactly its rule-1 metrics, and a boolean under `fullsync_coordinator`
raises. -/
theorem claim2_witness :
    parse_riak_repl_stats_data (.obj [("server_id", Json.str "node1"),
        ("queues", Json.arr []), ("errors", Json.num 0)]) =
      .ok ["riak_repl_errors 0.0"] ∧
    (∃ e, parse_riak_repl_stats_data
      (.obj [("fullsync_coordinator", Json.bool true)]) = .error e) := by
  constructor
  · have h := claim2_unrecognized_shapes.1 [("server_id", Json.str "node1"),
      ("queues", Json.arr []), ("errors", Json.num 0)] (by decide)
    exact h.trans (by rfl)
  · exact claim2_unrecognized_shapes.2.1 [("fullsync_coordinator", Json.bool true)]
      (Json.bool true) (List.mem_singleton.mpr rfl) (Or.inl rfl)
